import Mathlib

/-!
Verification development for the Auto-Bike backend.

The definitions below are a shallow embedding of the repository sources:
  - `connection_tracker.py` (class ConnectionTracker): the in-process
    acknowledgment store built on per-subject asyncio events;
  - `main.py` (class BikeService): the polled, Redis-backed probe protocol
    and the command dispatch/validation logic;
  - `mqtt_service.py` (class RedisSubscriber): the relay loop that forwards
    pub/sub envelopes to the broker client.

Modelling conventions:
  - Python dictionaries and the key/value store become association lists;
    assignment conses the new binding and filters out the old one.
  - asyncio events are given identities (natural numbers): `create_event`
    installs a fresh identity, `set_response` records the identity of the
    event it sets, and a waiter captures the identity it awaits at the time
    the wait begins, matching object identity in the Python runtime.
  - Waits are modelled in the quiescent execution (no concurrent task runs
    during the wait) except where a scenario interleaves store operations
    explicitly; elapsed wall-clock seconds are carried as a `Nat` alongside
    each result.
  - json.loads is modelled by handing each pub/sub message its parse result
    directly (`none` for undecodable data).
  - Quote characters that the Python f-strings place around command words
    are omitted from the corresponding string literals.
-/

namespace AutoBike

/-- JSON values, as produced by json.loads / consumed by json.dumps. -/
inductive Json where
  | null
  | bool (b : Bool)
  | num (n : Int)
  | str (s : String)
  | arr (elems : List Json)
  | obj (fields : List (String × Json))

/-- Python truthiness of a JSON value (used by `if topic and payload`). -/
def Json.truthy : Json → Bool
  | .null => false
  | .bool b => b
  | .num n => n != 0
  | .str s => s != ""
  | .arr elems => !elems.isEmpty
  | .obj fields => !fields.isEmpty

/-- dict.get on a parsed JSON object; `none` both for a missing key and for
a non-object (the non-object case is separated out in `relayStep`, where it
raises AttributeError in Python). -/
def Json.getField : Json → String → Option Json
  | .obj fields, key => fields.lookup key
  | _, _ => none

/-! ## Relay (mqtt_service.py, RedisSubscriber.listen_for_messages) -/

/-- One message yielded by `pubsub.listen()`. `data` is the json.loads
parse result of the raw bytes: `none` models a JSONDecodeError. -/
structure PubSubMessage where
  mtype : String
  data : Option Json

/-- One iteration of the relay loop body for one pub/sub message. Returns
the broker publish calls `(topic, payload)` it makes (`some`), or `none`
when the iteration raises an exception not caught by the inner handler
(data parsed to a non-object, so `.get` raises AttributeError), which the
outer handler turns into loop termination. -/
def relayStep (m : PubSubMessage) : Option (List (Json × Json)) :=
  if m.mtype = "message" then
    match m.data with
    | none => some []
    | some d =>
      match d with
      | .obj _ =>
        match d.getField "topic", d.getField "payload" with
        | some topic, some payload =>
          if topic.truthy && payload.truthy then some [(topic, payload)]
          else some []
        | _, _ => some []
      | _ => none
  else some []

/-- The relay loop over a finite prefix of the pub/sub stream: the broker
publish calls made, and whether the loop is still alive afterwards. -/
def listen_for_messages : List PubSubMessage → List (Json × Json) × Bool
  | [] => ([], true)
  | m :: rest =>
    match relayStep m with
    | none => ([], false)
    | some pubs =>
      let out := listen_for_messages rest
      (pubs ++ out.1, out.2)

/-! ## Redis data store (main.py, RedisDataStore) -/

/-- The key/value store: key, value, optional TTL in seconds. -/
abbrev DataStore := List (String × String × Option Nat)

/-- redis set with optional expiry: overwrites any previous binding. -/
def DataStore.set (st : DataStore) (key value : String) (ex : Option Nat) :
    DataStore :=
  (key, value, ex) :: st.filter (fun e => e.1 != key)

/-- redis get: the stored value, if any. -/
def DataStore.get (st : DataStore) (key : String) : Option String :=
  (st.lookup key).map (fun v => v.1)

/-! ## BikeService (main.py) -/

/-- The observable service state: the data store plus the log of publisher
publish calls `(channel, message)` made so far. -/
structure ServiceState where
  store : DataStore
  pubs : List (String × Json)

/-- The status/message shape returned by the probe and ack handlers. -/
structure ApiResult where
  status : String
  message : String
deriving Repr, DecidableEq

/-- fastapi HTTPException, as raised by BikeService. -/
structure HTTPException where
  status_code : Nat
  detail : String
deriving Repr, DecidableEq

/-- The connect envelope published by test_bike_connection. -/
def connectMessage (bike_id : String) : Json :=
  .obj [("topic", .str bike_id), ("payload", .obj [("command", .str "connect")])]

/-- The retry loop of test_bike_connection over a fixed store (quiescent
execution): up to `n` checks, sleeping 1 s after each failed check.
Returns (acknowledged observed, elapsed seconds). -/
def poll_loop (st : DataStore) (key : String) : Nat → Bool × Nat
  | 0 => (false, 0)
  | n + 1 =>
    if st.get key = some "acknowledged" then (true, 0)
    else
      let r := poll_loop st key n
      (r.1, r.2 + 1)

/-- BikeService.test_bike_connection in the quiescent execution: publishes
the connect envelope (`pubResult` is the delivery count the publisher
returns, which the code discards), writes the `waiting` record with a 10 s
TTL, then polls the store 10 times at 1 s intervals. Returns ((result,
elapsed seconds), final state). -/
def test_bike_connection (s : ServiceState) (bike_id : String)
    (pubResult : Nat) : (ApiResult × Nat) × ServiceState :=
  let s1 : ServiceState :=
    { store := s.store, pubs := s.pubs ++ [("mqtt_channel", connectMessage bike_id)] }
  let redis_key := "ack:" ++ bike_id
  let s2 : ServiceState := { s1 with store := s1.store.set redis_key "waiting" (some 10) }
  let r := poll_loop s2.store redis_key 10
  let result : ApiResult :=
    if r.1 then
      { status := "success", message := "Bike " ++ bike_id ++ " responded successfully" }
    else
      { status := "failed", message := "Bike " ++ bike_id ++ " did not respond" }
  ((result, r.2), s2)

/-- BikeService.handle_bike_response: unconditionally records the
acknowledgment with a 30 s TTL and reports success. -/
def handle_bike_response (s : ServiceState) (bike_id : String) :
    ApiResult × ServiceState :=
  let redis_key := "ack:" ++ bike_id
  ({ status := "success", message := "Bike " ++ bike_id ++ " acknowledged connection" },
   { s with store := s.store.set redis_key "acknowledged" (some 30) })

/-- The BikeCommand request body. -/
structure BikeCommand where
  command : String
  speed : Option Int
  angle : Option Int
deriving Repr, DecidableEq

/-- The fixed command vocabulary of BikeService.send_command. -/
def valid_commands : List String :=
  ["forward", "backward", "left", "right", "stop", "center"]

/-- json.dumps of an optional int field (Python None becomes JSON null). -/
def optIntJson : Option Int → Json
  | none => .null
  | some n => .num n

/-- The sent shape returned by send_command on delivery. -/
structure SendResult where
  status : String
  message : String
  redis_receivers : Nat
deriving Repr, DecidableEq

/-- BikeService.send_command: validates the command against the fixed
vocabulary before any publish; on a valid command publishes the envelope and
reports sent, or raises 500 when the publisher reports zero receivers.
`pubResult` is the delivery count the publisher returns for this call. -/
def send_command (s : ServiceState) (bike_id : String) (command : BikeCommand)
    (pubResult : Nat) : Except HTTPException SendResult × ServiceState :=
  if command.command ∈ valid_commands then
    let message : Json :=
      .obj [("topic", .str bike_id),
            ("payload", .obj [("command", .str command.command),
                              ("speed", optIntJson command.speed),
                              ("turning_angle", optIntJson command.angle)])]
    let s1 : ServiceState := { s with pubs := s.pubs ++ [("mqtt_channel", message)] }
    if pubResult > 0 then
      (.ok { status := "sent",
             message := "Command " ++ command.command ++ " sent to Bike " ++ bike_id,
             redis_receivers := pubResult }, s1)
    else
      (.error { status_code := 500,
                detail := "No MQTT subscribers received the message." }, s1)
  else
    (.error { status_code := 400,
              detail := "Invalid command. Use forward, backward, left, right, center, or stop." }, s)

/-! ## ConnectionTracker (connection_tracker.py) -/

/-- The in-process tracker state. `pending` maps a bike id to the identity
of the asyncio.Event currently installed for it; `nextEvent` supplies fresh
identities; `setEvents` records the identities of events that have been
set. -/
structure TrackerState where
  pending : List (String × Nat)
  nextEvent : Nat
  setEvents : List Nat
deriving Repr, DecidableEq

/-- Reachable-state invariant: every event identity ever set was issued. -/
def TrackerState.WF (s : TrackerState) : Prop :=
  ∀ e ∈ s.setEvents, e < s.nextEvent

namespace ConnectionTracker

/-- ConnectionTracker.create_event: installs a fresh, unset event for the
bike id, overwriting any previous entry. -/
def create_event (s : TrackerState) (bike_id : String) : TrackerState :=
  { pending := (bike_id, s.nextEvent) :: s.pending.filter (fun p => p.1 != bike_id),
    nextEvent := s.nextEvent + 1,
    setEvents := s.setEvents }

/-- ConnectionTracker.set_response: sets the bike's current event and
returns true if one is pending, otherwise returns false. -/
def set_response (s : TrackerState) (bike_id : String) : Bool × TrackerState :=
  match s.pending.lookup bike_id with
  | some ev => (true, { s with setEvents := ev :: s.setEvents })
  | none => (false, s)

/-- The dictionary access `self.pending_responses[bike_id]` performed when
wait_for_response starts: captures the identity of the event the wait will
block on (`none` models the KeyError on a missing entry). -/
def wait_begin (s : TrackerState) (bike_id : String) : Option Nat :=
  s.pending.lookup bike_id

/-- The `finally` cleanup: `self.pending_responses.pop(bike_id, None)`. -/
def cleanup (s : TrackerState) (bike_id : String) : TrackerState :=
  { s with pending := s.pending.filter (fun p => p.1 != bike_id) }

/-- Conclusion of `asyncio.wait_for(event.wait(), timeout)` at state `s`,
for the event identity `captured` at the start of the wait, in the
quiescent execution (no task signals during the wait itself): success
immediately if the captured event is set, otherwise TimeoutError after
`timeout` seconds; the cleanup runs on both paths. Returns ((result,
elapsed seconds), state), or `none` when the initial dictionary access
raised KeyError. -/
def wait_conclude (s : TrackerState) (bike_id : String) (captured : Option Nat)
    (timeout : Nat) : Option ((ApiResult × Nat) × TrackerState) :=
  match captured with
  | none => none
  | some ev =>
    if s.setEvents.contains ev then
      some (({ status := "success",
               message := "Bike " ++ bike_id ++ " responded successfully" }, 0),
            cleanup s bike_id)
    else
      some (({ status := "failed",
               message := "Bike " ++ bike_id ++ " did not respond within " ++
                 toString timeout ++ " seconds" }, timeout),
            cleanup s bike_id)

/-- ConnectionTracker.wait_for_response, with the capture and the
conclusion taken in the same state (no interleaved tracker operations). -/
def wait_for_response (s : TrackerState) (bike_id : String) (timeout : Nat) :
    Option ((ApiResult × Nat) × TrackerState) :=
  wait_conclude s bike_id (wait_begin s bike_id) timeout

end ConnectionTracker

/-! ## Helper lemmas -/

theorem lookup_filter_self (l : List (String × Nat)) (k : String) :
    (l.filter (fun p => p.1 != k)).lookup k = none := by
  induction l with
  | nil => rfl
  | cons p l ih =>
    rcases p with ⟨k2, v⟩
    by_cases h : k2 = k
    · simpa [List.filter_cons, h] using ih
    · have hb : (k2 != k) = true := by simpa [bne_iff_ne] using h
      have hf : (k == k2) = false := beq_false_of_ne (Ne.symm h)
      simp [List.filter_cons, hb, List.lookup_cons, hf, ih]

theorem lookup_filter_other (l : List (String × Nat)) (k k2 : String)
    (h : k2 ≠ k) :
    (l.filter (fun p => p.1 != k)).lookup k2 = l.lookup k2 := by
  induction l with
  | nil => rfl
  | cons p l ih =>
    rcases p with ⟨k3, v⟩
    by_cases h3 : k3 = k
    · have hf : (k2 == k) = false := beq_false_of_ne h
      simp [List.filter_cons, h3, List.lookup_cons, hf, ih]
    · have hb : (k3 != k) = true := by simpa [bne_iff_ne] using h3
      by_cases h23 : k2 = k3
      · simp [List.filter_cons, hb, h23, List.lookup_cons_self]
      · have hf : (k2 == k3) = false := beq_false_of_ne h23
        simp [List.filter_cons, hb, List.lookup_cons, hf, ih]

theorem get_set_same (st : DataStore) (k v : String) (ex : Option Nat) :
    DataStore.get (DataStore.set st k v ex) k = some v := by
  simp [DataStore.set, DataStore.get, List.lookup_cons_self]

theorem poll_loop_not_ack (st : DataStore) (key : String) (n : Nat)
    (h : DataStore.get st key ≠ some "acknowledged") :
    poll_loop st key n = (false, n) := by
  induction n with
  | zero => rfl
  | succ n ih => simp [poll_loop, h, ih]

namespace ConnectionTracker

/-! ## Claims about the in-process acknowledgment store -/

/-- C3: for every subject and every timeout strictly greater than zero,
create_event followed immediately by set_response makes wait_for_response
return the success outcome, regardless of the timeout value: the captured
event is already set when the wait begins, so there is no premature
expiry. -/
theorem C3_signal_then_wait_succeeds (s : TrackerState) (bike_id : String)
    (timeout : Nat) (h : 0 < timeout) :
    (wait_for_response (set_response (create_event s bike_id) bike_id).2 bike_id
        timeout).map (fun out => out.1.1.status) = some "success" := by
  simp [create_event, set_response, wait_for_response, wait_begin, wait_conclude,
    List.lookup_cons_self, List.contains, List.elem_eq_mem]

/-- Witness for C3 at a concrete subject and timeout. -/
theorem C3_witness :
    (wait_for_response
        (set_response (create_event ⟨[], 0, []⟩ "bike1") "bike1").2 "bike1"
        5).map (fun out => out.1.1.status) = some "success" :=
  C3_signal_then_wait_succeeds ⟨[], 0, []⟩ "bike1" 5 (by decide)

/-- C4: a wait with no signal ever delivered returns the failed outcome
with exactly the timeout elapsed and removes the pending entry, so a
subsequent set_response reports no waiter; in the polled form,
test_bike_connection with no acknowledgment returns failed after the 10 s
poll budget (10 polls at 1 s intervals, so elapsed is within the budget
plus one poll interval). -/
theorem C4_timeout_failed_cleanup (s : TrackerState) (st : ServiceState)
    (bike_id bid2 : String) (timeout pubResult : Nat)
    (hWF : TrackerState.WF s) :
    (∃ r s2,
      wait_for_response (create_event s bike_id) bike_id timeout
        = some ((r, timeout), s2) ∧
      r.status = "failed" ∧
      s2.pending.lookup bike_id = none ∧
      set_response s2 bike_id = (false, s2)) ∧
    (test_bike_connection st bid2 pubResult).1.1.status = "failed" ∧
    (test_bike_connection st bid2 pubResult).1.2 = 10 := by
  have hne : s.nextEvent ∉ s.setEvents := fun hm => absurd (hWF _ hm) (Nat.lt_irrefl _)
  have hcont : s.setEvents.contains s.nextEvent = false := by
    simp [List.contains, List.elem_eq_mem, hne]
  have hlk : (cleanup (create_event s bike_id) bike_id).pending.lookup bike_id
      = none := lookup_filter_self _ _
  constructor
  · refine ⟨⟨"failed", "Bike " ++ bike_id ++ " did not respond within " ++
        toString timeout ++ " seconds"⟩,
      cleanup (create_event s bike_id) bike_id, ?_, rfl, hlk, ?_⟩
    · simp [wait_for_response, wait_begin, wait_conclude, create_event,
        List.lookup_cons_self, hcont, cleanup, hne]
    · simp [set_response, hlk]
  · have hget : DataStore.get
        (DataStore.set st.store ("ack:" ++ bid2) "waiting" (some 10))
        ("ack:" ++ bid2) ≠ some "acknowledged" := by
      rw [get_set_same]; simp
    constructor <;>
      simp [test_bike_connection, poll_loop_not_ack _ _ _ hget]

/-- Witness for C4 at a concrete subject, empty states and timeout 5. -/
theorem C4_witness :
    (∃ r s2,
      wait_for_response (create_event ⟨[], 0, []⟩ "bike1") "bike1" 5
        = some ((r, 5), s2) ∧
      r.status = "failed" ∧
      s2.pending.lookup "bike1" = none ∧
      set_response s2 "bike1" = (false, s2)) ∧
    (test_bike_connection ⟨[], []⟩ "bike1" 1).1.1.status = "failed" ∧
    (test_bike_connection ⟨[], []⟩ "bike1" 1).1.2 = 10 :=
  C4_timeout_failed_cleanup ⟨[], 0, []⟩ ⟨[], []⟩ "bike1" "bike1" 5 1
    (fun e he => absurd he (List.not_mem_nil e))

/-- C5: with two create_event calls for the same subject before the first
resolves, probe A captures the first event identity; a single subsequent
set_response sets only the event installed by the second create (the
signalled-event set gains exactly the second identity), the first event is
never set, and probe A's wait can only conclude in the failed outcome. -/
theorem C5_second_probe_supersedes (s : TrackerState) (bike_id : String)
    (timeout : Nat) (hWF : TrackerState.WF s) :
    wait_begin (create_event s bike_id) bike_id = some s.nextEvent ∧
    (set_response (create_event (create_event s bike_id) bike_id) bike_id).1
      = true ∧
    (set_response (create_event (create_event s bike_id) bike_id) bike_id).2.setEvents
      = (s.nextEvent + 1) :: s.setEvents ∧
    s.nextEvent ∉
      (set_response (create_event (create_event s bike_id) bike_id) bike_id).2.setEvents ∧
    (wait_conclude
        (set_response (create_event (create_event s bike_id) bike_id) bike_id).2
        bike_id (some s.nextEvent) timeout).map (fun out => out.1.1.status)
      = some "failed" := by
  have hne : s.nextEvent ∉ s.setEvents := fun hm => absurd (hWF _ hm) (Nat.lt_irrefl _)
  have hne2 : s.nextEvent ∉ (s.nextEvent + 1) :: s.setEvents := by
    intro hm
    rcases List.mem_cons.mp hm with h1 | h1
    · omega
    · exact hne h1
  have hcont : ((s.nextEvent + 1) :: s.setEvents).contains s.nextEvent = false := by
    simp [List.contains, List.elem_eq_mem, hne2]
  refine ⟨?_, ?_, ?_, ?_, ?_⟩
  · simp [wait_begin, create_event, List.lookup_cons_self]
  · simp [set_response, create_event, List.lookup_cons_self]
  · simp [set_response, create_event, List.lookup_cons_self]
  · simpa [set_response, create_event, List.lookup_cons_self] using hne2
  · simp [wait_conclude, set_response, create_event, List.lookup_cons_self,
      hcont, hne]

/-- Witness for C5 at a concrete subject, the empty state and timeout 5. -/
theorem C5_witness :
    wait_begin (create_event ⟨[], 0, []⟩ "bike1") "bike1" = some 0 ∧
    (set_response (create_event (create_event ⟨[], 0, []⟩ "bike1") "bike1") "bike1").1
      = true ∧
    (set_response (create_event (create_event ⟨[], 0, []⟩ "bike1") "bike1") "bike1").2.setEvents
      = (0 + 1) :: [] ∧
    (0 : Nat) ∉
      (set_response (create_event (create_event ⟨[], 0, []⟩ "bike1") "bike1") "bike1").2.setEvents ∧
    (wait_conclude
        (set_response (create_event (create_event ⟨[], 0, []⟩ "bike1") "bike1") "bike1").2
        "bike1" (some 0) 5).map (fun out => out.1.1.status)
      = some "failed" :=
  C5_second_probe_supersedes ⟨[], 0, []⟩ "bike1" 5
    (fun e he => absurd he (List.not_mem_nil e))

/-- C10: set_response leaves the pending map (its set of tracked subjects
and their entries) unchanged, and a completed wait_for_response removes
exactly its own subject's entry, leaving every other subject's entry and
all event state (issued and set identities) unchanged. -/
theorem C10_frame (s : TrackerState) (bike_id : String) (timeout : Nat)
    (r : ApiResult × Nat) (s2 : TrackerState)
    (h : wait_for_response s bike_id timeout = some (r, s2)) :
    (set_response s bike_id).2.pending = s.pending ∧
    s2.pending.lookup bike_id = none ∧
    (∀ k, k ≠ bike_id → s2.pending.lookup k = s.pending.lookup k) ∧
    s2.setEvents = s.setEvents ∧ s2.nextEvent = s.nextEvent := by
  have hs2 : s2 = cleanup s bike_id := by
    unfold wait_for_response wait_conclude wait_begin at h
    cases hl : s.pending.lookup bike_id with
    | none => rw [hl] at h; simp at h
    | some ev =>
      rw [hl] at h
      by_cases hc : s.setEvents.contains ev
      · simp only [hc, if_true, Option.some.injEq, Prod.mk.injEq] at h
        exact h.2.symm
      · simp only [hc, if_false, Option.some.injEq, Prod.mk.injEq,
          Bool.false_eq_true] at h
        exact h.2.symm
  refine ⟨?_, ?_, ?_, ?_, ?_⟩
  · unfold set_response
    cases s.pending.lookup bike_id <;> rfl
  · rw [hs2]; exact lookup_filter_self _ _
  · intro k hk; rw [hs2]; exact lookup_filter_other _ _ _ hk
  · rw [hs2]; rfl
  · rw [hs2]; rfl

/-- Witness for C10 at a concrete state with one tracked subject whose wait
times out. -/
theorem C10_witness :
    (set_response ⟨[("bike1", 0)], 1, []⟩ "bike1").2.pending = [("bike1", 0)] ∧
    (⟨[], 1, []⟩ : TrackerState).pending.lookup "bike1" = none ∧
    (∀ k, k ≠ "bike1" →
      (⟨[], 1, []⟩ : TrackerState).pending.lookup k
        = (⟨[("bike1", 0)], 1, []⟩ : TrackerState).pending.lookup k) ∧
    (⟨[], 1, []⟩ : TrackerState).setEvents
      = (⟨[("bike1", 0)], 1, []⟩ : TrackerState).setEvents ∧
    (⟨[], 1, []⟩ : TrackerState).nextEvent
      = (⟨[("bike1", 0)], 1, []⟩ : TrackerState).nextEvent :=
  C10_frame ⟨[("bike1", 0)], 1, []⟩ "bike1" 5
    (⟨"failed", "Bike bike1 did not respond within 5 seconds"⟩, 5)
    ⟨[], 1, []⟩ (by decide)

end ConnectionTracker

/-! ## Claims about BikeService and the relay -/

/-- C1 counterexample: with a publish reporting zero delivery,
test_bike_connection still creates the waiting ack record with a 10 s TTL
and returns failed only after the full 10 s poll budget, not immediately —
refuting the claim that a failed publish returns failed immediately with no
pending-wait record created. -/
theorem C1_counterexample :
    (test_bike_connection ⟨[], []⟩ "bike1" 0).2.store.lookup "ack:bike1"
      = some ("waiting", some 10) ∧
    (test_bike_connection ⟨[], []⟩ "bike1" 0).1.2 = 10 ∧
    (test_bike_connection ⟨[], []⟩ "bike1" 0).1.1.status = "failed" := by
  refine ⟨rfl, rfl, rfl⟩

/-- C1 amended: test_bike_connection discards the delivery count reported
by publish: for every state, subject and delivery count (including zero),
it publishes the connect envelope, creates the waiting ack record with a
10 s TTL anyway, and (with no acknowledgment arriving) returns failed only
after the full 10 s poll budget, never immediately. -/
theorem C1_amended (s : ServiceState) (bike_id : String) (pubResult : Nat) :
    (test_bike_connection s bike_id pubResult).2.store.lookup ("ack:" ++ bike_id)
      = some ("waiting", some 10) ∧
    (test_bike_connection s bike_id pubResult).2.pubs
      = s.pubs ++ [("mqtt_channel", connectMessage bike_id)] ∧
    (test_bike_connection s bike_id pubResult).1.1.status = "failed" ∧
    (test_bike_connection s bike_id pubResult).1.2 = 10 := by
  have hget : DataStore.get
      (DataStore.set s.store ("ack:" ++ bike_id) "waiting" (some 10))
      ("ack:" ++ bike_id) ≠ some "acknowledged" := by
    rw [get_set_same]; simp
  refine ⟨?_, ?_, ?_, ?_⟩
  · simp [test_bike_connection, DataStore.set, List.lookup_cons_self]
  · simp [test_bike_connection]
  · simp [test_bike_connection, poll_loop_not_ack _ _ 10 hget]
  · simp [test_bike_connection, poll_loop_not_ack _ _ 10 hget]

/-- C2 counterexample: with no pending wait ever created, the ack endpoint
handler returns the success shape, not the claimed error shape. -/
theorem C2_counterexample :
    (handle_bike_response ⟨[], []⟩ "bike1").1.status = "success" ∧
    (handle_bike_response ⟨[], []⟩ "bike1").1.status ≠ "error" := by
  exact ⟨rfl, by decide⟩

/-- C2 amended: the in-process store's set_response does return false for a
subject with no pending wait, but the POST bike-response handler does not
consult any waiter: it returns the success shape for every state, never an
error shape. -/
theorem C2_amended :
    (∀ (s : TrackerState) (bike_id : String),
      s.pending.lookup bike_id = none →
      ConnectionTracker.set_response s bike_id = (false, s)) ∧
    (∀ (st : ServiceState) (bike_id : String),
      (handle_bike_response st bike_id).1.status = "success") := by
  constructor
  · intro s bike_id h
    simp [ConnectionTracker.set_response, h]
  · intro st bike_id
    rfl

/-- Witness for C2 at a concrete subject with no pending wait. -/
theorem C2_witness :
    ConnectionTracker.set_response ⟨[], 0, []⟩ "bike1" = (false, ⟨[], 0, []⟩) ∧
    (handle_bike_response ⟨[], []⟩ "bike1").1.status = "success" :=
  ⟨C2_amended.1 ⟨[], 0, []⟩ "bike1" rfl, C2_amended.2 ⟨[], []⟩ "bike1"⟩

/-- C6: a command whose action is outside the fixed vocabulary is rejected
with HTTP 400 and the service state is unchanged: in particular the publish
log is untouched, so the publish operation is never invoked for that
call. -/
theorem C6_invalid_rejected_before_publish (s : ServiceState)
    (bike_id : String) (command : BikeCommand) (pubResult : Nat)
    (h : command.command ∉ valid_commands) :
    (send_command s bike_id command pubResult).1
      = .error ⟨400,
          "Invalid command. Use forward, backward, left, right, center, or stop."⟩ ∧
    (send_command s bike_id command pubResult).2 = s ∧
    (send_command s bike_id command pubResult).2.pubs = s.pubs := by
  unfold send_command
  rw [if_neg h]
  exact ⟨rfl, rfl, rfl⟩

/-- Witness for C6 at the concrete action spin. -/
theorem C6_witness :
    (send_command ⟨[], []⟩ "bike1" ⟨"spin", none, none⟩ 1).1
      = .error ⟨400,
          "Invalid command. Use forward, backward, left, right, center, or stop."⟩ ∧
    (send_command ⟨[], []⟩ "bike1" ⟨"spin", none, none⟩ 1).2
      = (⟨[], []⟩ : ServiceState) ∧
    (send_command ⟨[], []⟩ "bike1" ⟨"spin", none, none⟩ 1).2.pubs
      = (⟨[], []⟩ : ServiceState).pubs :=
  C6_invalid_rejected_before_publish ⟨[], []⟩ "bike1" ⟨"spin", none, none⟩ 1
    (by decide)

/-- C7 counterexample: the envelope carrying topic bike7 and payload the
empty object has both fields present, yet the relay makes zero publish
calls for it, because the code tests Python truthiness (`if topic and
payload`) rather than presence — refuting the claim that every envelope
carrying both a topic and a payload causes exactly one publish. -/
theorem C7_counterexample :
    (Json.obj [("topic", .str "bike7"), ("payload", .obj [])]).getField "topic"
      = some (.str "bike7") ∧
    (Json.obj [("topic", .str "bike7"), ("payload", .obj [])]).getField "payload"
      = some (.obj []) ∧
    (listen_for_messages
        [⟨"message", some (.obj [("topic", .str "bike7"), ("payload", .obj [])])⟩]).1
      = [] := by
  refine ⟨rfl, rfl, rfl⟩

/-- C7 amended: an envelope whose topic and payload are both present and
truthy (non-null, non-empty — the code's `if topic and payload` check)
causes exactly one broker publish with that topic and payload; an envelope
missing its payload, or one whose data fails JSON parse, causes zero
publish calls and the loop goes on to process the remaining messages. -/
theorem C7_amended :
    (∀ (d topic payload : Json),
      d.getField "topic" = some topic → d.getField "payload" = some payload →
      topic.truthy = true → payload.truthy = true →
      relayStep ⟨"message", some d⟩ = some [(topic, payload)]) ∧
    (∀ (t : Json) (rest : List PubSubMessage),
      relayStep ⟨"message", some (.obj [("topic", t)])⟩ = some [] ∧
      listen_for_messages (⟨"message", some (.obj [("topic", t)])⟩ :: rest)
        = listen_for_messages rest) ∧
    (∀ rest : List PubSubMessage,
      relayStep ⟨"message", none⟩ = some [] ∧
      listen_for_messages (⟨"message", none⟩ :: rest)
        = listen_for_messages rest) := by
  refine ⟨?_, ?_, ?_⟩
  · intro d topic payload ht hp htt hpt
    cases d with
    | obj fields => simp [relayStep, ht, hp, htt, hpt]
    | null => simp [Json.getField] at ht
    | bool b => simp [Json.getField] at ht
    | num n => simp [Json.getField] at ht
    | str s => simp [Json.getField] at ht
    | arr elems => simp [Json.getField] at ht
  · intro t rest
    exact ⟨rfl, rfl⟩
  · intro rest
    exact ⟨rfl, rfl⟩

/-- Witness for C7 at the concrete envelopes named by the claim. -/
theorem C7_witness :
    relayStep ⟨"message", some (.obj [("topic", .str "bike7"),
        ("payload", .obj [("command", .str "stop")])])⟩
      = some [(.str "bike7", .obj [("command", .str "stop")])] ∧
    (relayStep ⟨"message", some (.obj [("topic", .str "bike7")])⟩ = some [] ∧
     listen_for_messages (⟨"message", some (.obj [("topic", .str "bike7")])⟩ ::
        [⟨"message", some (.obj [("topic", .str "bike7"),
          ("payload", .obj [("command", .str "stop")])])⟩])
       = listen_for_messages [⟨"message", some (.obj [("topic", .str "bike7"),
          ("payload", .obj [("command", .str "stop")])])⟩]) ∧
    (relayStep ⟨"message", none⟩ = some [] ∧
     listen_for_messages (⟨"message", none⟩ :: [])
       = listen_for_messages []) :=
  ⟨C7_amended.1 _ _ _ rfl rfl rfl rfl,
   C7_amended.2.1 (.str "bike7") _,
   C7_amended.2.2 []⟩

/-- C8: in the shared/polled store form, the probe writes the waiting
record with a 10 s TTL under the subject's ack key, and the ack handler
overwrites that key to acknowledged with a 30 s TTL, unconditionally, for
every starting store state. -/
theorem C8_waiting_and_ack_records (s s2 : ServiceState)
    (bike_id bid2 : String) (pubResult : Nat) :
    (test_bike_connection s bike_id pubResult).2.store.lookup ("ack:" ++ bike_id)
      = some ("waiting", some 10) ∧
    (handle_bike_response s2 bid2).2.store.lookup ("ack:" ++ bid2)
      = some ("acknowledged", some 30) := by
  constructor
  · simp [test_bike_connection, DataStore.set, List.lookup_cons_self]
  · simp [handle_bike_response, DataStore.set, List.lookup_cons_self]

/-- Overwriting a key with the same value and TTL twice equals doing so
once. -/
theorem set_set (st : DataStore) (k v : String) (ex : Option Nat) :
    DataStore.set (DataStore.set st k v ex) k v ex
      = DataStore.set st k v ex := by
  unfold DataStore.set
  simp [List.filter_cons]

/-- C9: the ack handler returns the success shape for every subject and
every store state, and calling it again is idempotent: the second call
returns the same result and leaves the same state. -/
theorem C9_ack_idempotent_success (st : ServiceState) (bike_id : String) :
    (handle_bike_response st bike_id).1.status = "success" ∧
    handle_bike_response (handle_bike_response st bike_id).2 bike_id
      = handle_bike_response st bike_id := by
  refine ⟨rfl, ?_⟩
  simp [handle_bike_response, set_set]

end AutoBike
